import Mathlib

/-!
# Verification of the Crossmint delegated-signer wallet plugin

Shallow embedding of the orchestrator code of the Crossmint OpenClaw plugin
(`src/api.ts`, `src/tools.ts`, `src/wallet.ts`) and proofs about it.

The TypeScript source performs network I/O; here every remote call is an
oracle value supplied through an environment record, and each orchestrator
returns its result together with the trace of outgoing calls it performed.
JavaScript string truthiness (`undefined`, `null` and `""` are falsy) is
modelled explicitly on `Option String`.
-/

set_option maxHeartbeats 1000000

namespace Crossmint

/-- JS truthiness for an optional string: `undefined`/`null`/`""` are falsy. -/
def strTruthy (o : Option String) : Bool :=
  match o with
  | none => false
  | some s => !s.isEmpty

@[simp] theorem strTruthy_none : strTruthy none = false := rfl

/-- JS `a || b` on optional strings: the first operand when truthy, else the second. -/
def jsOr (a b : Option String) : Option String :=
  if strTruthy a then a else b

/-- JS `a || dflt` where `dflt` is a plain string. -/
def jsOrStr (a : Option String) (dflt : String) : String :=
  if strTruthy a then a.getD "" else dflt

/-- JS `s.includes(sub)`: substring containment on the character sequence. -/
def jsIncludes (s sub : String) : Bool :=
  decide (sub.data <:+: s.data)

/-- JS `s.startsWith(pre)`: prefix test on the character sequence. -/
def jsStarts (s pre : String) : Bool :=
  pre.data.isPrefixOf s.data

/-! ## Data model (`src/api.ts` types) -/

/-- The `onChain` sub-object of a transaction response. -/
structure OnChainInfo where
  status : Option String
  chain : Option String
  txId : Option String
  deriving DecidableEq, Repr

/-- Raw JSON body of a `GET .../transactions/{id}` response, before the
normalisation done by `getTransactionStatus`. -/
structure TxStatusData where
  id : String
  status : String
  hash : Option String
  txId : Option String
  onChain : Option OnChainInfo
  deriving DecidableEq, Repr

/-- The `CrossmintTransaction` record built by `getTransactionStatus`. -/
structure CrossmintTransaction where
  id : String
  status : String
  hash : Option String
  txId : Option String
  explorerLink : Option String
  onChain : Option OnChainInfo
  deriving DecidableEq, Repr

/-- Field access `data.onChain?.txId`. -/
def onChainTxId (o : Option OnChainInfo) : Option String :=
  o.bind OnChainInfo.txId

/-- `getTransactionStatus`: mapping of the raw response body into a
`CrossmintTransaction` (`hash: data.onChain?.txId || data.hash`,
devnet explorer link when an on-chain txId is present). -/
def mapTransactionStatus (d : TxStatusData) : CrossmintTransaction :=
  { id := d.id
  , status := d.status
  , hash := jsOr (onChainTxId d.onChain) d.hash
  , txId := d.txId
  , explorerLink :=
      if strTruthy (onChainTxId d.onChain) then
        some ("https://explorer.solana.com/tx/" ++ (onChainTxId d.onChain).getD "" ++ "?cluster=devnet")
      else none
  , onChain := d.onChain }

/-- One error per distinct `throw` site of `src/api.ts`.  The remote bodies
interpolated into the messages are carried structurally. -/
inductive ApiErr where
  | statusFetchFailed (body : String)
  | createTransferFailed (body : String)
  | approveTransferFailed (body : String)
  | createOrderFailed (body : String)
  | createTransactionFailed (body : String)
  | submitApprovalFailed (body : String)
  | paymentConfirmationFailed (body : String)
  | txFailedDuringBroadcast (tx : CrossmintTransaction)
  | insufficientFunds (message : String)
  | noSerializedTransaction (paymentStatus : String)
  | noMessageToSign
  | broadcastTimeout
  deriving DecidableEq, Repr

/-- Outcome of one `getTransactionStatus` call given the oracle's raw
response: a non-ok response (or network failure) becomes the thrown
`Failed to get transaction status: ...` error. -/
def getTransactionStatusE (r : Except String TxStatusData) : Except ApiErr CrossmintTransaction :=
  match r with
  | .error body => .error (.statusFetchFailed body)
  | .ok d => .ok (mapTransactionStatus d)

end Crossmint

namespace Crossmint

/-! ## `buildAmazonProductLocator` (C10) -/

/-- `buildAmazonProductLocator` from `src/api.ts`: prefix an ASIN or URL with
`amazon:` unless it already carries that scheme. -/
def buildAmazonProductLocator (productIdOrUrl : String) : String :=
  if jsStarts productIdOrUrl "amazon:" then productIdOrUrl
  else if jsIncludes productIdOrUrl "amazon.com" then "amazon:" ++ productIdOrUrl
  else "amazon:" ++ productIdOrUrl

theorem jsStarts_append (s t : String) : jsStarts (s ++ t) s = true := by
  simp [jsStarts, List.isPrefixOf_iff_prefix]

/-- **C10.** `buildAmazonProductLocator` always returns a string beginning with
`amazon:`, and it is idempotent: applied to its own output it returns that
output unchanged. -/
theorem buildAmazonProductLocator_starts_and_idem (s : String) :
    jsStarts (buildAmazonProductLocator s) "amazon:" = true ∧
    buildAmazonProductLocator (buildAmazonProductLocator s) = buildAmazonProductLocator s := by
  unfold buildAmazonProductLocator
  by_cases h : jsStarts s "amazon:" = true
  · simp [h]
  · simp [h, jsStarts_append]

/-! ## Keystore `getOrCreateWallet` (C8) -/

/-- A stored wallet record, as persisted by the keystore and observed by
`src/wallet.test.ts` (`address`, base58 `secretKey`, `createdAt`). -/
structure StoredWallet where
  address : String
  secretKey : String
  createdAt : String
  deriving DecidableEq, Repr

/-- The keystore state: the `wallets` mapping of `wallets.json` plus a count of
keypair generations performed (to state "no new keypair is generated"). -/
structure WalletStore where
  wallets : List (String × StoredWallet)
  generated : Nat
  deriving DecidableEq, Repr

/-- Modelled from the spec: the keystore implementation (`src/wallet.ts`) is not
among the provided sources — only its test file and its callers are.  Spec §4.1:
`getOrCreate(agentId)` returns the existing identity for `agentId` if present,
otherwise generates a fresh keypair, persists it under `agentId`, and returns
it.  `gen` is the keypair generator, invoked once per creation. -/
def getOrCreateWallet (gen : Nat → StoredWallet) (st : WalletStore) (agentId : String) :
    StoredWallet × WalletStore :=
  match st.wallets.lookup agentId with
  | some w => (w, st)
  | none =>
      let w := gen st.generated
      (w, ⟨(agentId, w) :: st.wallets, st.generated + 1⟩)

/-- **C8.** `getOrCreateWallet` is idempotent: for every agentId, a second call
returns the identical address and byte-identical secret key material, and the
store is unchanged — in particular no new keypair is generated. -/
theorem getOrCreateWallet_idempotent (gen : Nat → StoredWallet) (st : WalletStore) (agentId : String) :
    (getOrCreateWallet gen (getOrCreateWallet gen st agentId).2 agentId).1.address
        = (getOrCreateWallet gen st agentId).1.address ∧
    (getOrCreateWallet gen (getOrCreateWallet gen st agentId).2 agentId).1.secretKey
        = (getOrCreateWallet gen st agentId).1.secretKey ∧
    (getOrCreateWallet gen (getOrCreateWallet gen st agentId).2 agentId).2
        = (getOrCreateWallet gen st agentId).2 := by
  unfold getOrCreateWallet
  cases h : st.wallets.lookup agentId with
  | some w => simp [h]
  | none => simp [h, List.lookup]

/-! ## The polling loops of `src/api.ts`

Both loops start a timer, fetch the transaction status, inspect it, sleep
`pollIntervalMs` and repeat while `Date.now() - startTime < timeoutMs`.
Time is idealised: fetches are instantaneous and sleeps are exact, so the
`n`-th fetch happens at elapsed time `n * pollIntervalMs`.  The loops are
written on descending fuel; the wrapper supplies `timeoutMs / pollIntervalMs + 1`
iterations, which (for a positive interval) is more than the guard ever
allows, so the fuel-exhausted branch — defined to coincide with the
guard-false branch — is never the deciding one. -/

/-- A polling run: its outcome, the elapsed times at which the status fetch
was invoked, and the elapsed time at which the loop returned. -/
structure PollRun (α : Type) where
  result : Except ApiErr α
  fetchSchedule : List Nat
  returnTime : Nat
  deriving Repr

/-- Default `timeoutMs` of `waitForTransaction`. -/
def waitForTransactionDefaultTimeoutMs : Nat := 60000

/-- Default `pollIntervalMs` of `waitForTransaction`. -/
def waitForTransactionDefaultPollIntervalMs : Nat := 2000

/-- One loop-body step of `waitForTransaction` given the oracle's raw response:
`some res` means the loop exits with `res` (a thrown fetch error propagates; a
terminal status — `success`/`completed` or `failed`/`rejected`/`cancelled` —
is returned); `none` means the status is still pending and the loop sleeps and
retries. -/
def waitStep (r : Except String TxStatusData) : Option (Except ApiErr CrossmintTransaction) :=
  match getTransactionStatusE r with
  | .error e => some (.error e)
  | .ok tx =>
      if tx.status == "success" || tx.status == "completed" then some (.ok tx)
      else if tx.status == "failed" || tx.status == "rejected" || tx.status == "cancelled" then
        some (.ok tx)
      else none

/-- The loop body iterations of `waitForTransaction` from position `n`.
While in the window it runs `waitStep`; once the window closes it performs one
last `getTransactionStatus` and returns that fresh result. -/
def waitForTransactionGo (fetch : Nat → Except String TxStatusData)
    (timeoutMs pollIntervalMs : Nat) : Nat → Nat → PollRun CrossmintTransaction
  | 0, n => ⟨getTransactionStatusE (fetch n), [n * pollIntervalMs], n * pollIntervalMs⟩
  | fuel + 1, n =>
      if n * pollIntervalMs < timeoutMs then
        match waitStep (fetch n) with
        | some res => ⟨res, [n * pollIntervalMs], n * pollIntervalMs⟩
        | none =>
            let r := waitForTransactionGo fetch timeoutMs pollIntervalMs fuel (n + 1)
            ⟨r.result, n * pollIntervalMs :: r.fetchSchedule, r.returnTime⟩
      else
        ⟨getTransactionStatusE (fetch n), [n * pollIntervalMs], n * pollIntervalMs⟩

/-- `waitForTransaction` as a run record. -/
def waitForTransactionRun (fetch : Nat → Except String TxStatusData)
    (timeoutMs pollIntervalMs : Nat) : PollRun CrossmintTransaction :=
  waitForTransactionGo fetch timeoutMs pollIntervalMs (timeoutMs / pollIntervalMs + 1) 0

/-- Default `timeoutMs` of `waitForTransactionBroadcast`. -/
def waitForTransactionBroadcastDefaultTimeoutMs : Nat := 30000

/-- Default `pollIntervalMs` of `waitForTransactionBroadcast`. -/
def waitForTransactionBroadcastDefaultPollIntervalMs : Nat := 2000

/-- The per-iteration reference search of `waitForTransactionBroadcast`:
`txStatus.onChain?.txId` if truthy, else the top-level `txStatus.txId` if
truthy, else — only when the status is `success` or `completed` — the fallback
`txStatus.onChain?.txId || txStatus.txId || txStatus.hash` when truthy. -/
def broadcastRefCode (tx : CrossmintTransaction) : Option String :=
  if strTruthy (onChainTxId tx.onChain) then onChainTxId tx.onChain
  else if strTruthy tx.txId then tx.txId
  else if tx.status == "success" || tx.status == "completed" then
    let txId := jsOr (onChainTxId tx.onChain) (jsOr tx.txId tx.hash)
    if strTruthy txId then txId else none
  else none

/-- One loop-body step of `waitForTransactionBroadcast` given the oracle's raw
response: `some res` means the loop exits with `res` (a thrown fetch error
propagates; a found on-chain reference is returned; a `failed` status with no
reference found by the earlier checks throws); `none` means the loop sleeps
and retries. -/
def broadcastStep (r : Except String TxStatusData) : Option (Except ApiErr (Option String)) :=
  match getTransactionStatusE r with
  | .error e => some (.error e)
  | .ok tx =>
      match broadcastRefCode tx with
      | some ref => some (.ok (some ref))
      | none =>
          if tx.status == "failed" then some (.error (.txFailedDuringBroadcast tx))
          else none

/-- The loop body iterations of `waitForTransactionBroadcast` from position
`n`.  While in the window it runs `broadcastStep`; when the window closes it
returns `null` without a further fetch. -/
def waitForTransactionBroadcastGo (fetch : Nat → Except String TxStatusData)
    (timeoutMs pollIntervalMs : Nat) : Nat → Nat → PollRun (Option String)
  | 0, n => ⟨.ok none, [], n * pollIntervalMs⟩
  | fuel + 1, n =>
      if n * pollIntervalMs < timeoutMs then
        match broadcastStep (fetch n) with
        | some res => ⟨res, [n * pollIntervalMs], n * pollIntervalMs⟩
        | none =>
            let r := waitForTransactionBroadcastGo fetch timeoutMs pollIntervalMs fuel (n + 1)
            ⟨r.result, n * pollIntervalMs :: r.fetchSchedule, r.returnTime⟩
      else
        ⟨.ok none, [], n * pollIntervalMs⟩

/-- `waitForTransactionBroadcast` as a run record. -/
def waitForTransactionBroadcastRun (fetch : Nat → Except String TxStatusData)
    (timeoutMs pollIntervalMs : Nat) : PollRun (Option String) :=
  waitForTransactionBroadcastGo fetch timeoutMs pollIntervalMs (timeoutMs / pollIntervalMs + 1) 0

/-! ## `createTransfer` (C3) -/

/-- The local signer keypair: its base58 public key, and local detached
ed25519 signing (base58 decode of the challenge, `nacl.sign.detached`, base58
encode of the signature) folded into one function. -/
structure Keypair where
  publicKeyBase58 : String
  sign : String → String

/-- A raw pending-approval entry of a transfer-creation response
(`txData.approvals.pending[i]`); only its `message` is read. -/
structure RawPendingItem where
  message : Option String
  deriving DecidableEq, Repr

/-- The `approvals` object of a transfer-creation response. -/
structure RawApprovals where
  pending : Option (List RawPendingItem)
  deriving DecidableEq, Repr

/-- Raw JSON body of a successful transfer-creation response (`txData`). -/
structure TransferCreateData where
  id : String
  status : String
  hash : Option String
  explorerLink : Option String
  approvals : Option RawApprovals
  deriving DecidableEq, Repr

/-- Raw JSON body of a successful approval-submission response
(`approvedData`); all read fields are optional-with-fallback. -/
structure ApproveData where
  id : Option String
  status : Option String
  hash : Option String
  explorerLink : Option String
  deriving DecidableEq, Repr

/-- Oracle outcomes of the two remote calls `createTransfer` can make. -/
structure TransferEnv where
  createResponse : Except String TransferCreateData
  approveResponse : Except String ApproveData

/-- Outgoing effects of `createTransfer`, in order. -/
inductive TransferCall where
  | transferCreateCall (recipient tokenLocator amount signer : String)
  | transferSignEvent (message : String)
  | approvalSubmitCall (txId signer signature : String)
  deriving DecidableEq, Repr

/-- The pending list of `txData.approvals?.pending`, defaulting to `[]`. -/
def pendingOf (d : TransferCreateData) : List RawPendingItem :=
  (d.approvals.bind RawApprovals.pending).getD []

/-- `createTransfer` from `src/api.ts`: create the transfer; when the response
is `awaiting-approval` with a nonempty pending list whose head carries a truthy
`message`, sign that challenge locally and submit the approval, returning the
post-approval transaction; otherwise return the creation response as-is. -/
def createTransfer (env : TransferEnv) (recipient token amount : String) (keypair : Keypair) :
    Except ApiErr CrossmintTransaction × List TransferCall :=
  let tokenLocator := if token.toLower == "sol" then "solana:sol" else "solana:" ++ token
  let signer := "external-wallet:" ++ keypair.publicKeyBase58
  let createCall := TransferCall.transferCreateCall recipient tokenLocator amount signer
  match env.createResponse with
  | .error body => (.error (.createTransferFailed body), [createCall])
  | .ok txData =>
      let headMsg := ((pendingOf txData).head?).bind RawPendingItem.message
      if txData.status == "awaiting-approval" && decide (0 < (pendingOf txData).length)
          && strTruthy headMsg then
        let message := headMsg.getD ""
        let signatureBase58 := keypair.sign message
        let calls := [createCall, .transferSignEvent message,
          .approvalSubmitCall txData.id signer signatureBase58]
        match env.approveResponse with
        | .error body => (.error (.approveTransferFailed body), calls)
        | .ok approvedData =>
            (.ok { id := jsOrStr approvedData.id txData.id
                 , status := jsOrStr approvedData.status "pending"
                 , hash := approvedData.hash
                 , txId := none
                 , explorerLink := approvedData.explorerLink
                 , onChain := none }, calls)
      else
        (.ok { id := txData.id, status := txData.status, hash := txData.hash
             , txId := none, explorerLink := txData.explorerLink, onChain := none },
         [createCall])

/-! ## Order / purchase data model (`src/api.ts` headless-checkout types) -/

/-- `{ amount, currency }` price object. -/
structure Price where
  amount : String
  currency : String
  deriving DecidableEq, Repr

/-- `quote` section of an order. -/
structure QuoteInfo where
  status : String
  totalPrice : Option Price
  deriving DecidableEq, Repr

/-- `payment.preparation` of an order. -/
structure PaymentPreparation where
  serializedTransaction : Option String
  deriving DecidableEq, Repr

/-- `payment.failureReason` of an order (accessed through a cast in
`purchaseProduct`). -/
structure FailureReason where
  code : String
  message : String
  deriving DecidableEq, Repr

/-- `payment` section of an order. -/
structure OrderPaymentInfo where
  status : Option String
  preparation : Option PaymentPreparation
  failureReason : Option FailureReason
  deriving DecidableEq, Repr

/-- `packageTracking` of a delivery item. -/
structure PackageTracking where
  carrierName : String
  carrierTrackingNumber : String
  deriving DecidableEq, Repr

/-- One `delivery.items[i]` entry. -/
structure DeliveryItem where
  status : String
  packageTracking : Option PackageTracking
  deriving DecidableEq, Repr

/-- `delivery` section of an order. -/
structure DeliveryInfo where
  status : String
  items : Option (List DeliveryItem)
  deriving DecidableEq, Repr

/-- `lineItems[i].metadata` of an order. -/
structure LineItemMetadata where
  title : Option String
  imageUrl : Option String
  price : Option Price
  deriving DecidableEq, Repr

/-- One `lineItems[i]` entry of an order. -/
structure OrderLineItemInfo where
  metadata : Option LineItemMetadata
  deriving DecidableEq, Repr

/-- A `CrossmintOrder`. -/
structure CrossmintOrder where
  orderId : String
  phase : String
  quote : Option QuoteInfo
  payment : Option OrderPaymentInfo
  delivery : Option DeliveryInfo
  lineItems : Option (List OrderLineItemInfo)
  deriving DecidableEq, Repr

/-- `recipient.physicalAddress` of an order request. -/
structure PhysAddress where
  name : String
  line1 : String
  line2 : Option String
  city : String
  state : Option String
  postalCode : String
  country : String
  deriving DecidableEq, Repr

/-- `recipient` of an order request. -/
structure OrderRecipient where
  email : String
  physicalAddress : PhysAddress
  deriving DecidableEq, Repr

/-- `payment` of an order request. -/
structure OrderPayment where
  receiptEmail : String
  method : String
  currency : String
  payerAddress : String
  deriving DecidableEq, Repr

/-- One requested line item. -/
structure OrderLineItem where
  productLocator : String
  deriving DecidableEq, Repr

/-- A `CreateOrderRequest`. -/
structure CreateOrderRequest where
  recipient : OrderRecipient
  payment : OrderPayment
  lineItems : List OrderLineItem
  deriving DecidableEq, Repr

/-- Response of `createOrder`: the order plus the `clientSecret`. -/
structure CreateOrderResponse where
  order : CrossmintOrder
  clientSecret : String
  deriving DecidableEq, Repr

/-- One typed pending approval of a wallet-transaction response. -/
structure PendingApprovalItem where
  signer : String
  message : String
  deriving DecidableEq, Repr

/-- `approvals` of a wallet-transaction response. -/
structure ApprovalsInfo where
  pending : Option (List PendingApprovalItem)
  deriving DecidableEq, Repr

/-- A `TransactionResponse` from `createTransaction` / `submitApproval`. -/
structure TransactionResponse where
  id : String
  status : String
  approvals : Option ApprovalsInfo
  deriving DecidableEq, Repr

/-- `PurchaseResult` returned by `purchaseProduct`. -/
structure PurchaseResult where
  order : CrossmintOrder
  transactionId : String
  onChainTxId : String
  explorerLink : String
  deriving DecidableEq, Repr

/-- The API config: the key is injected by the request wrapper, the
environment decides the explorer link (only `"staging"` exists in the TS
type). -/
structure CrossmintApiConfig where
  apiKey : String
  environment : String
  deriving DecidableEq, Repr

/-! ## `purchaseProduct` (C1, C2) -/

/-- Oracle outcomes for every remote call `purchaseProduct` can make. -/
structure PurchaseEnv where
  orderResponse : Except String CreateOrderResponse
  txResponse : Except String TransactionResponse
  approvalResponse : Except String TransactionResponse
  statusFetch : Nat → Except String TxStatusData
  confirmResponse : Except String CrossmintOrder

/-- Outgoing effects of `purchaseProduct`, in order.  `statusFetchCall`
carries the elapsed time of the broadcast-wait poll that caused it. -/
inductive PurchaseCall where
  | createOrderCall
  | createTransactionCall (payer serializedTx signer : String)
  | purchaseSignEvent (message : String)
  | submitApprovalCall (payer txId signer signature : String)
  | statusFetchCall (elapsedMs : Nat)
  | submitPaymentConfirmationCall (orderId txId clientSecret : String)
  deriving DecidableEq, Repr

/-- `order.payment?.preparation?.serializedTransaction`. -/
def serializedTxOf (order : CrossmintOrder) : Option String :=
  (order.payment.bind OrderPaymentInfo.preparation).bind PaymentPreparation.serializedTransaction

/-- `txResponse.approvals?.pending?.[0]?.message`. -/
def messageToSignOf (t : TransactionResponse) : Option String :=
  ((t.approvals.bind ApprovalsInfo.pending).bind List.head?).map PendingApprovalItem.message

/-- `purchaseProduct` from `src/api.ts` (current version): create the order,
surface a typed insufficient-funds failure or a protocol error when no payable
transaction is embedded, create the wallet transaction naming the delegated
signer, sign and submit the single pending approval challenge, poll for the
on-chain reference under a 30 s deadline, fail hard when none appears, then
submit the mandatory payment confirmation and return the updated order. -/
def purchaseProduct (config : CrossmintApiConfig) (env : PurchaseEnv)
    (request : CreateOrderRequest) (keypair : Keypair) :
    Except ApiErr PurchaseResult × List PurchaseCall :=
  match env.orderResponse with
  | .error body => (.error (.createOrderFailed body), [.createOrderCall])
  | .ok resp =>
      let order := resp.order
      let clientSecret := resp.clientSecret
      if strTruthy (serializedTxOf order) then
        let serializedTransaction := (serializedTxOf order).getD ""
        let createTxCall := PurchaseCall.createTransactionCall request.payment.payerAddress
          serializedTransaction keypair.publicKeyBase58
        match env.txResponse with
        | .error body => (.error (.createTransactionFailed body), [.createOrderCall, createTxCall])
        | .ok txResponse =>
            if strTruthy (messageToSignOf txResponse) then
              let messageToSign := (messageToSignOf txResponse).getD ""
              let signatureBase58 := keypair.sign messageToSign
              let approvalCall := PurchaseCall.submitApprovalCall request.payment.payerAddress
                txResponse.id keypair.publicKeyBase58 signatureBase58
              let calls2 := [PurchaseCall.createOrderCall, createTxCall,
                .purchaseSignEvent messageToSign, approvalCall]
              match env.approvalResponse with
              | .error body => (.error (.submitApprovalFailed body), calls2)
              | .ok _ =>
                  let run := waitForTransactionBroadcastRun env.statusFetch 30000
                    waitForTransactionBroadcastDefaultPollIntervalMs
                  let calls3 := calls2 ++ run.fetchSchedule.map PurchaseCall.statusFetchCall
                  match run.result with
                  | .error e => (.error e, calls3)
                  | .ok onChainTxId =>
                      if strTruthy onChainTxId then
                        let txid := onChainTxId.getD ""
                        let confirmCall := PurchaseCall.submitPaymentConfirmationCall
                          order.orderId txid clientSecret
                        match env.confirmResponse with
                        | .error body =>
                            (.error (.paymentConfirmationFailed body), calls3 ++ [confirmCall])
                        | .ok updatedOrder =>
                            let explorerLink :=
                              if config.environment == "staging" then
                                "https://explorer.solana.com/tx/" ++ txid ++ "?cluster=devnet"
                              else
                                "https://explorer.solana.com/tx/" ++ txid
                            (.ok { order := updatedOrder, transactionId := txResponse.id
                                 , onChainTxId := txid, explorerLink := explorerLink },
                             calls3 ++ [confirmCall])
                      else
                        (.error .broadcastTimeout, calls3)
            else
              (.error .noMessageToSign, [.createOrderCall, createTxCall])
      else
        match order.payment.bind OrderPaymentInfo.failureReason with
        | some failureReason =>
            if failureReason.code == "insufficient-funds" then
              (.error (.insufficientFunds failureReason.message), [.createOrderCall])
            else
              (.error (.noSerializedTransaction
                (jsOrStr (order.payment.bind OrderPaymentInfo.status) "unknown")), [.createOrderCall])
        | none =>
            (.error (.noSerializedTransaction
              (jsOrStr (order.payment.bind OrderPaymentInfo.status) "unknown")), [.createOrderCall])

/-- **C2.** When the order-creation response embeds no
`payment.preparation.serializedTransaction` and its payment `failureReason`
code is `insufficient-funds`, `purchaseProduct` fails with the typed
insufficient-funds error and never calls `createTransaction`. -/
theorem purchaseProduct_insufficient_funds (config : CrossmintApiConfig) (env : PurchaseEnv)
    (request : CreateOrderRequest) (keypair : Keypair) (resp : CreateOrderResponse)
    (failureReason : FailureReason)
    (horder : env.orderResponse = .ok resp)
    (hstx : serializedTxOf resp.order = none)
    (hfr : resp.order.payment.bind OrderPaymentInfo.failureReason = some failureReason)
    (hcode : failureReason.code = "insufficient-funds") :
    (purchaseProduct config env request keypair).1 = .error (.insufficientFunds failureReason.message) ∧
    ∀ p s g, PurchaseCall.createTransactionCall p s g ∉ (purchaseProduct config env request keypair).2 := by
  unfold purchaseProduct
  rw [horder]
  simp [hstx, hfr, hcode, strTruthy]

/-- **C3.** When the transfer-creation response is not `awaiting-approval`, or
carries no pending approval with a (truthy) message, `createTransfer` returns
the transaction as-is from the creation response: it performs no local signing
and never calls the approvals endpoint. -/
theorem createTransfer_returns_as_is (env : TransferEnv) (recipient token amount : String)
    (keypair : Keypair) (txData : TransferCreateData)
    (hcreate : env.createResponse = .ok txData)
    (hcond : txData.status ≠ "awaiting-approval" ∨
      ∀ item ∈ pendingOf txData, strTruthy item.message = false) :
    (createTransfer env recipient token amount keypair).1 =
      .ok { id := txData.id, status := txData.status, hash := txData.hash
          , txId := none, explorerLink := txData.explorerLink, onChain := none } ∧
    (∀ m, TransferCall.transferSignEvent m ∉ (createTransfer env recipient token amount keypair).2) ∧
    (∀ t s g, TransferCall.approvalSubmitCall t s g
      ∉ (createTransfer env recipient token amount keypair).2) := by
  have hfalse : (txData.status == "awaiting-approval" && decide (0 < (pendingOf txData).length)
      && strTruthy (((pendingOf txData).head?).bind RawPendingItem.message)) = false := by
    rcases hcond with hne | hall
    · simp [hne]
    · cases hp : pendingOf txData with
      | nil => simp [hp]
      | cons item rest =>
          have : strTruthy item.message = false := hall item (by rw [hp]; exact List.mem_cons_self item rest)
          simp [hp, this]
  unfold createTransfer
  rw [hcreate]
  simp [hfalse]

/-- **C1.** `purchaseProduct` reports success only after the
payment-confirmation call has been made for the order and accepted; and when
the broadcast-wait poll yields no on-chain reference by its deadline, it fails
with the broadcast-timeout error and payment confirmation is never called. -/
theorem purchaseProduct_confirmation_invariant (config : CrossmintApiConfig) (env : PurchaseEnv)
    (request : CreateOrderRequest) (keypair : Keypair) :
    (∀ r, (purchaseProduct config env request keypair).1 = .ok r →
      ∃ resp, env.orderResponse = .ok resp ∧
        env.confirmResponse = .ok r.order ∧
        PurchaseCall.submitPaymentConfirmationCall resp.order.orderId r.onChainTxId resp.clientSecret
          ∈ (purchaseProduct config env request keypair).2) ∧
    (∀ resp txResponse approveResp,
      env.orderResponse = .ok resp →
      strTruthy (serializedTxOf resp.order) = true →
      env.txResponse = .ok txResponse →
      strTruthy (messageToSignOf txResponse) = true →
      env.approvalResponse = .ok approveResp →
      (waitForTransactionBroadcastRun env.statusFetch 30000
          waitForTransactionBroadcastDefaultPollIntervalMs).result = .ok none →
      (purchaseProduct config env request keypair).1 = .error .broadcastTimeout ∧
      ∀ oid tid cs, PurchaseCall.submitPaymentConfirmationCall oid tid cs
        ∉ (purchaseProduct config env request keypair).2) := by
  constructor
  · intro r hr
    rcases horder : env.orderResponse with body | resp
    · rw [purchaseProduct, horder] at hr; simp at hr
    · refine ⟨resp, rfl, ?_⟩
      by_cases hstx : strTruthy (serializedTxOf resp.order) = true
      · rcases htx : env.txResponse with body | txResponse
        · rw [purchaseProduct, horder] at hr; simp [hstx, htx] at hr
        · by_cases hmsg : strTruthy (messageToSignOf txResponse) = true
          · rcases happr : env.approvalResponse with body | approveResp
            · rw [purchaseProduct, horder] at hr; simp [hstx, htx, hmsg, happr] at hr
            · rcases hrun : (waitForTransactionBroadcastRun env.statusFetch 30000
                  waitForTransactionBroadcastDefaultPollIntervalMs).result with e | oc
              · rw [purchaseProduct, horder] at hr
                simp [hstx, htx, hmsg, happr, hrun] at hr
              · by_cases hoc : strTruthy oc = true
                · rcases hconf : env.confirmResponse with body | updatedOrder
                  · rw [purchaseProduct, horder] at hr
                    simp [hstx, htx, hmsg, happr, hrun, hoc, hconf] at hr
                  · rw [purchaseProduct, horder] at hr
                    simp only [hstx, htx, hmsg, happr, hrun, hoc, hconf, if_true] at hr
                    rw [purchaseProduct, horder]
                    simp only [hstx, htx, hmsg, happr, hrun, hoc, hconf, if_true]
                    simp only [Except.ok.injEq] at hr
                    subst hr
                    simp [hconf]
                · rw [purchaseProduct, horder] at hr
                  simp [hstx, htx, hmsg, happr, hrun, hoc] at hr
          · rw [purchaseProduct, horder] at hr
            simp [hstx, htx, hmsg] at hr
      · rw [purchaseProduct, horder] at hr
        rcases hfr : resp.order.payment.bind OrderPaymentInfo.failureReason with _ | failureReason
        · simp [hstx, hfr] at hr
        · by_cases hcode : failureReason.code = "insufficient-funds"
          · simp [hstx, hfr, hcode] at hr
          · simp [hstx, hfr, hcode] at hr
  · intro resp txResponse approveResp horder hstx htx hmsg happr hrun
    rw [purchaseProduct, horder]
    simp [hstx, htx, hmsg, happr, hrun, strTruthy_none]

/-! ## Poll-loop lemmas

The loops fetch at elapsed times `0, p, 2p, …`; the invariant
`n = 0 ∨ (n - 1) * p < T` says position `n` is either the start or was
reached by a sleep taken while the window was still open. -/

theorem pollTick_lt {T p n : Nat} (hp : 0 < p) (hn : n = 0 ∨ (n - 1) * p < T) :
    n * p < T + p := by
  rcases hn with rfl | h
  · simpa using Nat.lt_add_left T hp
  · cases n with
    | zero => simpa using Nat.lt_add_left T hp
    | succ m =>
        simp only [Nat.succ_sub_one] at h
        rw [Nat.succ_mul]
        exact Nat.add_lt_add_right h p

theorem timeout_lt_fuel_mul {T p : Nat} (hp : 0 < p) : T < (T / p + 1) * p := by
  calc T = p * (T / p) + T % p := (Nat.div_add_mod T p).symm
    _ < p * (T / p) + p := Nat.add_lt_add_left (Nat.mod_lt T hp) _
    _ = (T / p + 1) * p := by rw [Nat.add_mul, Nat.one_mul, Nat.mul_comm]

/-- Timing of `waitForTransaction`: every fetch (the final post-deadline one
included) happens before `T + p`, and the loop returns before `T + p`. -/
theorem waitForTransactionGo_time (fetch : Nat → Except String TxStatusData) (T p : Nat)
    (hp : 0 < p) :
    ∀ fuel n, (n = 0 ∨ (n - 1) * p < T) →
      (waitForTransactionGo fetch T p fuel n).returnTime < T + p ∧
      ∀ t ∈ (waitForTransactionGo fetch T p fuel n).fetchSchedule, t < T + p := by
  intro fuel
  induction fuel with
  | zero =>
      intro n hn
      have htick := pollTick_lt hp hn
      simp [waitForTransactionGo, htick]
  | succ fuel ih =>
      intro n hn
      have htick := pollTick_lt hp hn
      simp only [waitForTransactionGo]
      by_cases hguard : n * p < T
      · simp only [if_pos hguard]
        cases hs : waitStep (fetch n) with
        | some res => simp [htick]
        | none =>
            have ihr := ih (n + 1) (Or.inr (by simpa using hguard))
            dsimp only
            constructor
            · exact ihr.1
            · intro t ht
              simp only [List.mem_cons] at ht
              rcases ht with rfl | ht
              · exact htick
              · exact ihr.2 t ht
      · simp [if_neg hguard, htick]

/-- Reaching iteration `n₀` of `waitForTransaction`: while earlier in-window
steps all continue, the loop exits at `n₀` with whatever `waitStep` decides
there, and performs no fetch after time `n₀ * p`. -/
theorem waitForTransactionGo_reach (fetch : Nat → Except String TxStatusData) (T p n₀ : Nat)
    (res : Except ApiErr CrossmintTransaction)
    (hstep : waitStep (fetch n₀) = some res) (hwin : n₀ * p < T)
    (hok : ∀ k < n₀, waitStep (fetch k) = none) :
    ∀ fuel n, n ≤ n₀ → T ≤ (n + fuel) * p →
      (waitForTransactionGo fetch T p fuel n).result = res ∧
      (waitForTransactionGo fetch T p fuel n).returnTime = n₀ * p ∧
      ∀ t ∈ (waitForTransactionGo fetch T p fuel n).fetchSchedule, t ≤ n₀ * p := by
  intro fuel
  induction fuel with
  | zero =>
      intro n hn hfuel
      exact absurd hfuel (by
        simp only [Nat.add_zero]
        exact Nat.not_le_of_lt (Nat.lt_of_le_of_lt (Nat.mul_le_mul_right p hn) hwin))
  | succ fuel ih =>
      intro n hn hfuel
      have hguard : n * p < T := Nat.lt_of_le_of_lt (Nat.mul_le_mul_right p hn) hwin
      simp only [waitForTransactionGo, if_pos hguard]
      rcases Nat.eq_or_lt_of_le hn with rfl | hlt
      · simp [hstep]
      · rw [hok n hlt]
        have ihr := ih (n + 1) hlt (by
          rw [show n + 1 + fuel = n + (fuel + 1) from by omega]
          exact hfuel)
        dsimp only
        refine ⟨ihr.1, ihr.2.1, ?_⟩
        intro t ht
        simp only [List.mem_cons] at ht
        rcases ht with rfl | ht
        · exact Nat.mul_le_mul_right p (Nat.le_of_lt hlt)
        · exact ihr.2.2 t ht

/-- Timeout path of `waitForTransaction`: when every in-window fetch is still
pending, the loop exits the window and returns the result of one final fresh
`getTransactionStatus`, performed at the first poll tick at or past the
deadline. -/
theorem waitForTransactionGo_timeout (fetch : Nat → Except String TxStatusData) (T p : Nat)
    (hnt : ∀ k, k * p < T → waitStep (fetch k) = none) :
    ∀ fuel n, T ≤ (n + fuel) * p → (n = 0 ∨ (n - 1) * p < T) →
      ∃ m, T ≤ m * p ∧ (m = 0 ∨ (m - 1) * p < T) ∧
        (waitForTransactionGo fetch T p fuel n).result = getTransactionStatusE (fetch m) ∧
        (waitForTransactionGo fetch T p fuel n).returnTime = m * p := by
  intro fuel
  induction fuel with
  | zero =>
      intro n hfuel hn
      simp only [Nat.add_zero] at hfuel
      exact ⟨n, hfuel, hn, by simp [waitForTransactionGo]⟩
  | succ fuel ih =>
      intro n hfuel hn
      simp only [waitForTransactionGo]
      by_cases hguard : n * p < T
      · rw [if_pos hguard, hnt n hguard]
        have ihr := ih (n + 1) (by
          rw [show n + 1 + fuel = n + (fuel + 1) from by omega]
          exact hfuel) (Or.inr (by simpa using hguard))
        rcases ihr with ⟨m, hm1, hm2, hm3, hm4⟩
        exact ⟨m, hm1, hm2, hm3, hm4⟩
      · rw [if_neg hguard]
        exact ⟨n, Nat.le_of_not_lt hguard, hn, by simp⟩

/-- Reaching iteration `n₀` of `waitForTransactionBroadcast`: while earlier
in-window steps all continue, the loop exits at `n₀` with whatever
`broadcastStep` decides there. -/
theorem waitForTransactionBroadcastGo_reach (fetch : Nat → Except String TxStatusData)
    (T p n₀ : Nat) (res : Except ApiErr (Option String))
    (hstep : broadcastStep (fetch n₀) = some res) (hwin : n₀ * p < T)
    (hok : ∀ k < n₀, broadcastStep (fetch k) = none) :
    ∀ fuel n, n ≤ n₀ → T ≤ (n + fuel) * p →
      (waitForTransactionBroadcastGo fetch T p fuel n).result = res ∧
      (waitForTransactionBroadcastGo fetch T p fuel n).returnTime = n₀ * p := by
  intro fuel
  induction fuel with
  | zero =>
      intro n hn hfuel
      exact absurd hfuel (by
        simp only [Nat.add_zero]
        exact Nat.not_le_of_lt (Nat.lt_of_le_of_lt (Nat.mul_le_mul_right p hn) hwin))
  | succ fuel ih =>
      intro n hn hfuel
      have hguard : n * p < T := Nat.lt_of_le_of_lt (Nat.mul_le_mul_right p hn) hwin
      simp only [waitForTransactionBroadcastGo, if_pos hguard]
      rcases Nat.eq_or_lt_of_le hn with rfl | hlt
      · simp [hstep]
      · rw [hok n hlt]
        have ihr := ih (n + 1) hlt (by
          rw [show n + 1 + fuel = n + (fuel + 1) from by omega]
          exact hfuel)
        dsimp only
        exact ⟨ihr.1, ihr.2⟩

/-! ## The spec-side reference search (C6) -/

/-- First truthy candidate of an ordered list of possible reference fields. -/
def firstTruthyRef : List (Option String) → Option String
  | [] => none
  | o :: rest => if strTruthy o then o else firstTruthyRef rest

/-- The reference search as the claim words it: `onChain.txId` first, then the
top-level `txId`, and — only once the status is `success` or `completed` — a
fallback scan over `onChain.txId`, `txId` and `hash`; the first reference
found in that order. -/
def broadcastRefSpec (tx : CrossmintTransaction) : Option String :=
  firstTruthyRef ([onChainTxId tx.onChain, tx.txId] ++
    (if tx.status == "success" || tx.status == "completed" then
      [onChainTxId tx.onChain, tx.txId, tx.hash]
    else []))

@[simp] theorem mapTransactionStatus_status (d : TxStatusData) :
    (mapTransactionStatus d).status = d.status := rfl

theorem broadcastRefCode_eq_spec (tx : CrossmintTransaction) :
    broadcastRefCode tx = broadcastRefSpec tx := by
  unfold broadcastRefCode broadcastRefSpec
  by_cases h1 : strTruthy (onChainTxId tx.onChain)
  · simp [firstTruthyRef, h1]
  · by_cases h2 : strTruthy tx.txId
    · simp [firstTruthyRef, h1, h2]
    · by_cases h3 : (tx.status == "success" || tx.status == "completed") = true
      · simp [firstTruthyRef, h1, h2, h3, jsOr]
      · simp [firstTruthyRef, h1, h2, h3]

/-- **C6.** The broadcast wait's per-iteration reference search looks at
exactly three locations in priority order — `onChain.txId`, then the top-level
`txId`, then (only once the status is `success`/`completed`) the fallback scan
over `onChain.txId`, `txId` and `hash` — the first reference found in that
order being returned by the loop at the first iteration that finds one; its
defaults are a 30 000 ms deadline with a 2 000 ms interval. -/
theorem waitForTransactionBroadcast_ref_priority :
    (∀ tx, broadcastRefCode tx = broadcastRefSpec tx) ∧
    (∀ (fetch : Nat → Except String TxStatusData) (T p n₀ : Nat) (d₀ : TxStatusData) (r : String),
      0 < p →
      (∀ k < n₀, broadcastStep (fetch k) = none) →
      fetch n₀ = .ok d₀ →
      broadcastRefCode (mapTransactionStatus d₀) = some r →
      n₀ * p < T →
      (waitForTransactionBroadcastRun fetch T p).result = .ok (some r) ∧
      (waitForTransactionBroadcastRun fetch T p).returnTime = n₀ * p) ∧
    waitForTransactionBroadcastDefaultTimeoutMs = 30000 ∧
    waitForTransactionBroadcastDefaultPollIntervalMs = 2000 := by
  refine ⟨broadcastRefCode_eq_spec, ?_, rfl, rfl⟩
  intro fetch T p n₀ d₀ r hp hok hfetch href hwin
  have hstep : broadcastStep (fetch n₀) = some (.ok (some r)) := by
    simp [broadcastStep, hfetch, getTransactionStatusE, href]
  exact waitForTransactionBroadcastGo_reach fetch T p n₀ _ hstep hwin hok _ 0 (Nat.zero_le _)
    (by simpa using Nat.le_of_lt (timeout_lt_fuel_mul hp))

/-- **C4 (amended).** `waitForTransaction` returns within `timeout + interval`
(idealised instantaneous fetches); every fetch happens before `timeout +
interval`; when no in-window fetch settles, the loop exits the window and
returns the result of one final *fresh* fetch performed at the first poll tick
at or past the deadline (whatever its status); the defaults are 60 000 ms and
2 000 ms. -/
theorem waitForTransaction_timing (fetch : Nat → Except String TxStatusData) (T p : Nat)
    (hp : 0 < p) :
    (waitForTransactionRun fetch T p).returnTime < T + p ∧
    (∀ t ∈ (waitForTransactionRun fetch T p).fetchSchedule, t < T + p) ∧
    ((∀ k, k * p < T → waitStep (fetch k) = none) →
      ∃ m, T ≤ m * p ∧ (m = 0 ∨ (m - 1) * p < T) ∧
        (waitForTransactionRun fetch T p).result = getTransactionStatusE (fetch m) ∧
        (waitForTransactionRun fetch T p).returnTime = m * p) ∧
    waitForTransactionDefaultTimeoutMs = 60000 ∧
    waitForTransactionDefaultPollIntervalMs = 2000 := by
  have hfuel : T ≤ (0 + (T / p + 1)) * p := by
    simpa using Nat.le_of_lt (timeout_lt_fuel_mul hp)
  refine ⟨?_, ?_, ?_, rfl, rfl⟩
  · exact (waitForTransactionGo_time fetch T p hp _ 0 (Or.inl rfl)).1
  · exact (waitForTransactionGo_time fetch T p hp _ 0 (Or.inl rfl)).2
  · intro hnt
    exact waitForTransactionGo_timeout fetch T p hnt _ 0 hfuel (Or.inl rfl)

/-- A status fetch whose transaction is still pending. -/
def pendingTx : TxStatusData := ⟨"tx1", "pending", none, none, none⟩

/-- A status fetch whose transaction has succeeded (no reference fields). -/
def successTx : TxStatusData := ⟨"tx1", "success", none, none, none⟩

/-- Oracle for the C4 counterexample: pending on the first poll, success after. -/
def c4Fetch : Nat → Except String TxStatusData :=
  fun n => if n = 0 then .ok pendingTx else .ok successTx

/-- **C4 counterexample.** With `timeoutMs = 1000`, `pollIntervalMs = 2000`
and a first fetch that is still pending, `waitForTransaction` performs a fetch
at elapsed time 2000 — after the deadline has passed — and returns that fresh
fetch's result (here a terminal `success`), not the last-observed
(`pending`) non-terminal status. -/
theorem waitForTransaction_fetches_after_deadline :
    (waitForTransactionRun c4Fetch 1000 2000).fetchSchedule = [0, 2000] ∧
    ¬ (∀ t ∈ (waitForTransactionRun c4Fetch 1000 2000).fetchSchedule, t ≤ 1000) ∧
    (waitForTransactionRun c4Fetch 1000 2000).result = .ok (mapTransactionStatus successTx) ∧
    pendingTx.status = "pending" ∧ successTx.status = "success" := by
  refine ⟨rfl, ?_, rfl, rfl, rfl⟩
  intro h
  have h2 := h 2000 (by decide)
  omega

/-- **C5 (amended).** When an individual status fetch fails before the
deadline, both poll loops abort immediately with the propagated fetch error —
there is no log-and-continue: in `waitForTransaction` no later fetch happens,
and in `waitForTransactionBroadcast` the loop returns at that very tick. -/
theorem pollLoops_abort_on_fetch_error :
    (∀ (fetch : Nat → Except String TxStatusData) (T p n₀ : Nat) (body : String),
      0 < p →
      fetch n₀ = .error body →
      n₀ * p < T →
      (∀ k < n₀, waitStep (fetch k) = none) →
      (waitForTransactionRun fetch T p).result = .error (.statusFetchFailed body) ∧
      ∀ t ∈ (waitForTransactionRun fetch T p).fetchSchedule, t ≤ n₀ * p) ∧
    (∀ (fetch : Nat → Except String TxStatusData) (T p n₀ : Nat) (body : String),
      0 < p →
      fetch n₀ = .error body →
      n₀ * p < T →
      (∀ k < n₀, broadcastStep (fetch k) = none) →
      (waitForTransactionBroadcastRun fetch T p).result = .error (.statusFetchFailed body) ∧
      (waitForTransactionBroadcastRun fetch T p).returnTime = n₀ * p) := by
  constructor
  · intro fetch T p n₀ body hp herr hwin hok
    have hstep : waitStep (fetch n₀) = some (.error (.statusFetchFailed body)) := by
      simp [waitStep, getTransactionStatusE, herr]
    have h := waitForTransactionGo_reach fetch T p n₀ _ hstep hwin hok _ 0 (Nat.zero_le _)
      (by simpa using Nat.le_of_lt (timeout_lt_fuel_mul hp))
    exact ⟨h.1, h.2.2⟩
  · intro fetch T p n₀ body hp herr hwin hok
    have hstep : broadcastStep (fetch n₀) = some (.error (.statusFetchFailed body)) := by
      simp [broadcastStep, getTransactionStatusE, herr]
    exact waitForTransactionBroadcastGo_reach fetch T p n₀ _ hstep hwin hok _ 0 (Nat.zero_le _)
      (by simpa using Nat.le_of_lt (timeout_lt_fuel_mul hp))

/-- Oracle for the C5 counterexample: the first fetch fails with a network
error, later fetches would still be pending. -/
def c5Fetch : Nat → Except String TxStatusData :=
  fun n => if n = 0 then .error "boom" else .ok pendingTx

/-- **C5 counterexample.** Under the default 60 000 / 2 000 parameters, a
transient failure of the very first status fetch makes `waitForTransaction`
abort with that error at once: no further polling attempt happens, refuting
the log-and-continue behaviour the claim states. -/
theorem waitForTransaction_aborts_on_first_error :
    (waitForTransactionRun c5Fetch 60000 2000).result = .error (.statusFetchFailed "boom") ∧
    (waitForTransactionRun c5Fetch 60000 2000).fetchSchedule = [0] ∧
    ¬ (∃ t ∈ (waitForTransactionRun c5Fetch 60000 2000).fetchSchedule, 0 < t) := by
  exact ⟨rfl, rfl, by decide⟩

/-- **C9 (amended).** When a broadcast-wait poll before the deadline fetches a
transaction whose status is `failed` and in which the per-iteration reference
search finds nothing, the loop throws (aborting the purchase) at that very
tick instead of continuing to poll or returning `null`. -/
theorem waitForTransactionBroadcast_failed_aborts (fetch : Nat → Except String TxStatusData)
    (T p n₀ : Nat) (d₀ : TxStatusData) (hp : 0 < p)
    (hok : ∀ k < n₀, broadcastStep (fetch k) = none)
    (hfetch : fetch n₀ = .ok d₀)
    (hfailed : d₀.status = "failed")
    (href : broadcastRefCode (mapTransactionStatus d₀) = none)
    (hwin : n₀ * p < T) :
    (waitForTransactionBroadcastRun fetch T p).result =
      .error (.txFailedDuringBroadcast (mapTransactionStatus d₀)) ∧
    (waitForTransactionBroadcastRun fetch T p).returnTime = n₀ * p := by
  have hstep : broadcastStep (fetch n₀) =
      some (.error (.txFailedDuringBroadcast (mapTransactionStatus d₀))) := by
    simp [broadcastStep, getTransactionStatusE, hfetch, href, hfailed]
  exact waitForTransactionBroadcastGo_reach fetch T p n₀ _ hstep hwin hok _ 0 (Nat.zero_le _)
    (by simpa using Nat.le_of_lt (timeout_lt_fuel_mul hp))

/-- A `failed` transaction that nevertheless carries an on-chain txId. -/
def failedWithTxData : TxStatusData := ⟨"t1", "failed", none, none, some ⟨none, none, some "abc"⟩⟩

/-- Oracle for the C9 counterexample. -/
def c9Fetch : Nat → Except String TxStatusData := fun _ => .ok failedWithTxData

/-- **C9 counterexample.** A pre-deadline fetch with status `failed` does not
always make `waitForTransactionBroadcast` throw: when the failed transaction
carries an `onChain.txId`, the reference checks run first and the loop returns
that reference successfully. -/
theorem waitForTransactionBroadcast_failed_with_ref_returns :
    (waitForTransactionBroadcastRun c9Fetch 30000 2000).result = .ok (some "abc") ∧
    failedWithTxData.status = "failed" ∧
    ∀ e : ApiErr, (waitForTransactionBroadcastRun c9Fetch 30000 2000).result ≠ .error e := by
  refine ⟨rfl, rfl, ?_⟩
  intro e
  simp [show (waitForTransactionBroadcastRun c9Fetch 30000 2000).result = .ok (some "abc") from rfl]

/-! ## The tool layer (`src/tools.ts`) — C7

The tool `execute` functions validate their arguments, look the wallet up in
the local keystore, and only then enter the `try` block that performs network
work through the orchestrators.  Keystore lookups and orchestrator outcomes
are oracle values; the orchestrator invocations are traced. -/

/-- A wallet record as `getWallet` returns it. -/
structure WalletRecord where
  address : String
  createdAt : String
  smartWalletAddress : Option String
  apiKey : Option String
  configuredAt : Option String
  deriving DecidableEq, Repr

/-- Errors observed by a tool's `catch` block. -/
inductive ToolErr where
  | api (e : ApiErr)
  | walletNotConfigured
  deriving DecidableEq, Repr

/-- A tool result: a plain text content block, or the text built by a `catch`
block from a message prefix and the caught error. -/
inductive ToolResp where
  | text (s : String)
  | caught (msgStart : String) (e : ToolErr)
  deriving DecidableEq, Repr

/-- Orchestrator invocations a tool can make (its network-calling effects). -/
inductive ToolCall where
  | createTransferCall (wallet toAddr token amount : String)
  | waitForTransactionCall (wallet txId : String) (timeoutMs : Nat)
  | purchaseProductCall (request : CreateOrderRequest)
  deriving DecidableEq, Repr

/-- `getAgentId(ctx)`: `ctx.agentId || "main"`. -/
def getAgentId (ctxAgentId : Option String) : String :=
  jsOrStr ctxAgentId "main"

/-- Arguments of `crossmint_send` (a `none` field models a parameter that is
absent or not of the expected type). -/
structure SendParams where
  toAddr : Option String
  amount : Option String
  token : Option String
  wait : Bool
  timeoutMs : Option Nat
  agentId : Option String
  deriving DecidableEq, Repr

/-- Oracle values for one `crossmint_send` execution. -/
structure SendEnv where
  walletData : Option WalletRecord
  configured : Bool
  keypair : Option Keypair
  transferResult : Except ApiErr CrossmintTransaction
  statusFetch : Nat → Except String TxStatusData

/-- The success text of `crossmint_send`. -/
def sendSuccessText (fromAddr toAddr amount token : String) (tx : CrossmintTransaction) : String :=
  let statusEmoji :=
    if tx.status == "success" || tx.status == "completed" then "✅"
    else if tx.status == "failed" || tx.status == "rejected" then "❌"
    else if tx.status == "pending" then "⏳" else "🔄"
  let actionWord :=
    if tx.status == "success" || tx.status == "completed" then "completed"
    else if tx.status == "failed" || tx.status == "rejected" then "failed" else "initiated"
  statusEmoji ++ " Transfer " ++ actionWord ++ "!\n\nFrom: " ++ fromAddr ++ "\nTo: " ++ toAddr
    ++ "\nAmount: " ++ amount ++ " " ++ token.toUpper ++ "\n\nTransaction ID: " ++ tx.id
    ++ "\nStatus: " ++ tx.status
    ++ (if strTruthy tx.hash then "\nHash: " ++ tx.hash.getD "" else "")
    ++ (if strTruthy tx.explorerLink then "\nExplorer: " ++ tx.explorerLink.getD "" else "")

/-- `createCrossmintSendTool.execute`: validate recipient and amount, look up
and check the wallet, then create (and optionally await) the transfer. -/
def sendExecute (env : SendEnv) (params : SendParams) (ctxAgentId : Option String) :
    ToolResp × List ToolCall :=
  let agentId := match params.agentId with | some s => s | none => getAgentId ctxAgentId
  let token := jsOrStr params.token "usdc"
  let timeoutMs := params.timeoutMs.getD 60000
  if !(strTruthy params.toAddr) then (.text "Recipient address is required.", [])
  else if !(strTruthy params.amount) then (.text "Amount is required.", [])
  else
    match env.walletData with
    | none =>
        (.text ("No wallet found for agent \"" ++ agentId ++ "\". Run crossmint_setup first."), [])
    | some walletData =>
        if !env.configured then
          (.text ("Wallet not fully configured for agent \"" ++ agentId
            ++ "\". Complete setup with crossmint_configure."), [])
        else if !(strTruthy walletData.apiKey) then
          (.caught "Failed to send: " .walletNotConfigured, [])
        else
          match env.keypair with
          | none => (.text "Failed to load wallet for signing.", [])
          | some _ =>
              let toS := params.toAddr.getD ""
              let amountS := params.amount.getD ""
              let smart := walletData.smartWalletAddress.getD ""
              let call1 := ToolCall.createTransferCall smart toS token amountS
              match env.transferResult with
              | .error e => (.caught "Failed to send: " (.api e), [call1])
              | .ok tx =>
                  if params.wait && !tx.id.isEmpty then
                    let run := waitForTransactionRun env.statusFetch timeoutMs
                      waitForTransactionDefaultPollIntervalMs
                    let calls := [call1, .waitForTransactionCall smart tx.id timeoutMs]
                    match run.result with
                    | .error e => (.caught "Failed to send: " (.api e), calls)
                    | .ok tx2 => (.text (sendSuccessText smart toS amountS token tx2), calls)
                  else
                    (.text (sendSuccessText smart toS amountS token tx), [call1])

/-- Arguments of `crossmint_buy`. -/
structure BuyParams where
  productId : Option String
  recipientEmail : Option String
  recipientName : Option String
  addressLine1 : Option String
  addressLine2 : Option String
  city : Option String
  state : Option String
  postalCode : Option String
  country : Option String
  currency : Option String
  agentId : Option String
  deriving DecidableEq, Repr

/-- Oracle values for one `crossmint_buy` execution. -/
structure BuyEnv where
  walletData : Option WalletRecord
  configured : Bool
  keypair : Option Keypair
  purchaseResult : Except ApiErr PurchaseResult

/-- The success text of `crossmint_buy`. -/
def buySuccessText (params : BuyParams) (result : PurchaseResult) : String :=
  let productTitle := jsOrStr
    (((result.order.lineItems.bind List.head?).bind OrderLineItemInfo.metadata).bind
      LineItemMetadata.title) "Product"
  let priceText := match result.order.quote.bind QuoteInfo.totalPrice with
    | some tp => tp.amount ++ " " ++ tp.currency
    | none => "See order details"
  let paymentStatus := jsOrStr (result.order.payment.bind OrderPaymentInfo.status)
    result.order.phase
  "✅ Purchase complete!\n\nProduct: " ++ productTitle ++ "\nPrice: " ++ priceText
    ++ "\nOrder ID: " ++ result.order.orderId ++ "\nPayment: " ++ paymentStatus
    ++ "\n\nTransaction: " ++ result.explorerLink
    ++ "\n\nShipping to:\n" ++ params.recipientName.getD "" ++ "\n" ++ params.addressLine1.getD ""
    ++ (if strTruthy params.addressLine2 then "\n" ++ params.addressLine2.getD "" else "")
    ++ "\n" ++ params.city.getD ""
    ++ (if strTruthy params.state then ", " ++ params.state.getD "" else "")
    ++ " " ++ params.postalCode.getD "" ++ "\n" ++ params.country.getD ""
    ++ "\n\nUse crossmint_order_status to check delivery status."

/-- `createCrossmintBuyTool.execute`: validate every required order field,
look up and check the wallet and keypair, then run the purchase flow. -/
def buyExecute (env : BuyEnv) (params : BuyParams) (ctxAgentId : Option String) :
    ToolResp × List ToolCall :=
  let agentId := match params.agentId with | some s => s | none => getAgentId ctxAgentId
  let currency := jsOrStr (params.currency.map String.toLower) "usdc"
  if !(strTruthy params.productId) || !(strTruthy params.recipientEmail)
      || !(strTruthy params.recipientName) || !(strTruthy params.addressLine1)
      || !(strTruthy params.city) || !(strTruthy params.postalCode)
      || !(strTruthy params.country) then
    (.text ("Missing required fields. Need: productId, recipientEmail, recipientName, "
      ++ "addressLine1, city, postalCode, country"), [])
  else
    match env.walletData with
    | none =>
        (.text ("No wallet found for agent \"" ++ agentId ++ "\". Run crossmint_setup first."), [])
    | some walletData =>
        if !env.configured then
          (.text ("Wallet not fully configured for agent \"" ++ agentId
            ++ "\". Complete setup with crossmint_configure."), [])
        else
          match env.keypair with
          | none => (.text "Failed to load wallet for signing.", [])
          | some _ =>
              if !(strTruthy walletData.apiKey) then
                (.caught "Failed to purchase: " .walletNotConfigured, [])
              else
                let productLocator := buildAmazonProductLocator (params.productId.getD "")
                let orderRequest : CreateOrderRequest :=
                  { recipient :=
                      { email := params.recipientEmail.getD ""
                      , physicalAddress :=
                          { name := params.recipientName.getD ""
                          , line1 := params.addressLine1.getD ""
                          , line2 := params.addressLine2
                          , city := params.city.getD ""
                          , state := params.state
                          , postalCode := params.postalCode.getD ""
                          , country := params.country.getD "" } }
                  , payment :=
                      { receiptEmail := params.recipientEmail.getD ""
                      , method := "solana"
                      , currency := currency
                      , payerAddress := walletData.smartWalletAddress.getD "" }
                  , lineItems := [{ productLocator := productLocator }] }
                let call1 := ToolCall.purchaseProductCall orderRequest
                match env.purchaseResult with
                | .error e => (.caught "Failed to purchase: " (.api e), [call1])
                | .ok result => (.text (buySuccessText params result), [call1])

/-- **C7.** Both `crossmint_send` and `crossmint_buy` fail fast on malformed
input — an empty/missing recipient or amount for send, any missing required
field for buy — returning an error text before any orchestrator (and hence any
network call) is invoked. -/
theorem tools_fail_fast_on_malformed_input :
    (∀ (env : SendEnv) (params : SendParams) (ctxAgentId : Option String),
      strTruthy params.toAddr = false ∨ strTruthy params.amount = false →
      ((sendExecute env params ctxAgentId).1 = .text "Recipient address is required." ∨
       (sendExecute env params ctxAgentId).1 = .text "Amount is required.") ∧
      (sendExecute env params ctxAgentId).2 = []) ∧
    (∀ (env : BuyEnv) (params : BuyParams) (ctxAgentId : Option String),
      strTruthy params.productId = false ∨ strTruthy params.recipientEmail = false ∨
      strTruthy params.recipientName = false ∨ strTruthy params.addressLine1 = false ∨
      strTruthy params.city = false ∨ strTruthy params.postalCode = false ∨
      strTruthy params.country = false →
      (buyExecute env params ctxAgentId).1 = .text ("Missing required fields. Need: productId, "
        ++ "recipientEmail, recipientName, addressLine1, city, postalCode, country") ∧
      (buyExecute env params ctxAgentId).2 = []) := by
  constructor
  · intro env params ctxAgentId h
    unfold sendExecute
    rcases h with h | h
    · simp [h]
    · by_cases hto : strTruthy params.toAddr
      · simp [hto, h]
      · simp [hto]
  · intro env params ctxAgentId h
    unfold buyExecute
    have hcond : (!(strTruthy params.productId) || !(strTruthy params.recipientEmail)
        || !(strTruthy params.recipientName) || !(strTruthy params.addressLine1)
        || !(strTruthy params.city) || !(strTruthy params.postalCode)
        || !(strTruthy params.country)) = true := by
      rcases h with h | h | h | h | h | h | h <;> simp [h]
    rw [if_pos hcond]
    constructor
    · rfl
    · rfl

/-! ## Concrete fixtures and witnesses -/

/-- A concrete signer keypair. -/
def kp0 : Keypair := ⟨"PUBKEY", fun m => "SIG[" ++ m ++ "]"⟩

/-- A concrete API config. -/
def cfg0 : CrossmintApiConfig := ⟨"sk_test", "staging"⟩

/-- A concrete order request. -/
def req0 : CreateOrderRequest :=
  ⟨⟨"ada@example.com", ⟨"Ada Lovelace", "1 Main St", none, "Springfield", none, "12345", "US"⟩⟩,
   ⟨"ada@example.com", "solana", "usdc", "SMARTWALLET"⟩, [⟨"amazon:B000000000"⟩]⟩

/-- Order response carrying a payable serialized transaction. -/
def resp1 : CreateOrderResponse :=
  ⟨⟨"o1", "payment", none, some ⟨some "awaiting-payment", some ⟨some "ser-tx"⟩, none⟩, none, none⟩,
   "cs1"⟩

/-- Transaction response with one pending approval challenge. -/
def txr1 : TransactionResponse := ⟨"t1", "awaiting-approval", some ⟨some [⟨"signer1", "MSGB58"⟩]⟩⟩

/-- Purchase environment whose broadcast-wait polls never surface a
reference: every status fetch stays `pending`. -/
def env1 : PurchaseEnv := ⟨.ok resp1, .ok txr1, .ok txr1, fun _ => .ok pendingTx, .error "unused"⟩

theorem purchaseProduct_confirmation_invariant_witness :
    (purchaseProduct cfg0 env1 req0 kp0).1 = .error .broadcastTimeout ∧
    ∀ oid tid cs, PurchaseCall.submitPaymentConfirmationCall oid tid cs
      ∉ (purchaseProduct cfg0 env1 req0 kp0).2 :=
  (purchaseProduct_confirmation_invariant cfg0 env1 req0 kp0).2 resp1 txr1 txr1 rfl rfl rfl rfl
    rfl rfl

/-- Failure reason of the insufficient-funds fixture. -/
def fr2 : FailureReason := ⟨"insufficient-funds", "Need 5 more USDC"⟩

/-- Order response with no serialized transaction and an insufficient-funds
failure reason. -/
def resp2 : CreateOrderResponse :=
  ⟨⟨"o2", "failed", none, some ⟨some "failed", none, some fr2⟩, none, none⟩, "cs2"⟩

/-- Purchase environment for the insufficient-funds scenario. -/
def env2 : PurchaseEnv :=
  ⟨.ok resp2, .error "unused", .error "unused", fun _ => .error "unused", .error "unused"⟩

theorem purchaseProduct_insufficient_funds_witness :
    (purchaseProduct cfg0 env2 req0 kp0).1 = .error (.insufficientFunds fr2.message) ∧
    ∀ p s g, PurchaseCall.createTransactionCall p s g ∉ (purchaseProduct cfg0 env2 req0 kp0).2 :=
  purchaseProduct_insufficient_funds cfg0 env2 req0 kp0 resp2 fr2 rfl rfl rfl rfl

/-- Transfer-creation response whose status is already terminal. -/
def d3 : TransferCreateData := ⟨"tr1", "pending", some "h1", none, none⟩

/-- Transfer environment for the no-approval-needed scenario. -/
def envT3 : TransferEnv := ⟨.ok d3, .error "unused"⟩

theorem createTransfer_returns_as_is_witness :
    (createTransfer envT3 "RECIP" "usdc" "10" kp0).1 =
      .ok { id := d3.id, status := d3.status, hash := d3.hash
          , txId := none, explorerLink := d3.explorerLink, onChain := none } ∧
    (∀ m, TransferCall.transferSignEvent m ∉ (createTransfer envT3 "RECIP" "usdc" "10" kp0).2) ∧
    (∀ t s g, TransferCall.approvalSubmitCall t s g
      ∉ (createTransfer envT3 "RECIP" "usdc" "10" kp0).2) :=
  createTransfer_returns_as_is envT3 "RECIP" "usdc" "10" kp0 d3 rfl (Or.inl (by decide))

theorem waitForTransaction_timing_witness :
    0 < 2000 ∧
    ((waitForTransactionRun c4Fetch 1000 2000).returnTime < 1000 + 2000 ∧
     (∀ t ∈ (waitForTransactionRun c4Fetch 1000 2000).fetchSchedule, t < 1000 + 2000) ∧
     ((∀ k, k * 2000 < 1000 → waitStep (c4Fetch k) = none) →
       ∃ m, 1000 ≤ m * 2000 ∧ (m = 0 ∨ (m - 1) * 2000 < 1000) ∧
         (waitForTransactionRun c4Fetch 1000 2000).result = getTransactionStatusE (c4Fetch m) ∧
         (waitForTransactionRun c4Fetch 1000 2000).returnTime = m * 2000) ∧
     waitForTransactionDefaultTimeoutMs = 60000 ∧
     waitForTransactionDefaultPollIntervalMs = 2000) :=
  ⟨by decide, waitForTransaction_timing c4Fetch 1000 2000 (by decide)⟩

theorem pollLoops_abort_on_fetch_error_witness :
    ((waitForTransactionRun c5Fetch 60000 2000).result = .error (.statusFetchFailed "boom") ∧
     ∀ t ∈ (waitForTransactionRun c5Fetch 60000 2000).fetchSchedule, t ≤ 0 * 2000) ∧
    ((waitForTransactionBroadcastRun c5Fetch 60000 2000).result =
        .error (.statusFetchFailed "boom") ∧
     (waitForTransactionBroadcastRun c5Fetch 60000 2000).returnTime = 0 * 2000) :=
  ⟨pollLoops_abort_on_fetch_error.1 c5Fetch 60000 2000 0 "boom" (by decide) rfl (by decide)
      (fun k hk => absurd hk (Nat.not_lt_zero k)),
   pollLoops_abort_on_fetch_error.2 c5Fetch 60000 2000 0 "boom" (by decide) rfl (by decide)
      (fun k hk => absurd hk (Nat.not_lt_zero k))⟩

/-- A still-pending transaction that now carries an `onChain.txId`. -/
def refTxData : TxStatusData := ⟨"t1", "pending", none, none, some ⟨none, none, some "ref1"⟩⟩

/-- Oracle for the C6 witness: no reference on the first poll, an
`onChain.txId` on the second. -/
def c6Fetch : Nat → Except String TxStatusData :=
  fun n => if n = 0 then .ok pendingTx else .ok refTxData

theorem waitForTransactionBroadcast_ref_priority_witness :
    (waitForTransactionBroadcastRun c6Fetch 30000 2000).result = .ok (some "ref1") ∧
    (waitForTransactionBroadcastRun c6Fetch 30000 2000).returnTime = 1 * 2000 :=
  waitForTransactionBroadcast_ref_priority.2.1 c6Fetch 30000 2000 1 refTxData "ref1" (by decide)
    (fun k hk => by
      have hk0 : k = 0 := by omega
      subst hk0
      rfl)
    rfl rfl (by decide)

/-- Send arguments with an empty recipient. -/
def sendParamsBad : SendParams := ⟨some "", some "10", none, false, none, none⟩

/-- Send environment (irrelevant to the fail-fast path). -/
def sendEnv0 : SendEnv :=
  ⟨none, false, none, .error (.createTransferFailed "unused"), fun _ => .error "unused"⟩

/-- Buy arguments missing the required city field. -/
def buyParamsBad : BuyParams :=
  ⟨some "B00X", some "a@b.c", some "Ada", some "1 Main", none, none, none, some "12345",
   some "US", none, none⟩

/-- Buy environment (irrelevant to the fail-fast path). -/
def buyEnv0 : BuyEnv := ⟨none, false, none, .error .broadcastTimeout⟩

theorem tools_fail_fast_on_malformed_input_witness :
    (((sendExecute sendEnv0 sendParamsBad none).1 = .text "Recipient address is required." ∨
      (sendExecute sendEnv0 sendParamsBad none).1 = .text "Amount is required.") ∧
     (sendExecute sendEnv0 sendParamsBad none).2 = []) ∧
    ((buyExecute buyEnv0 buyParamsBad none).1 = .text ("Missing required fields. Need: productId, "
        ++ "recipientEmail, recipientName, addressLine1, city, postalCode, country") ∧
     (buyExecute buyEnv0 buyParamsBad none).2 = []) :=
  ⟨tools_fail_fast_on_malformed_input.1 sendEnv0 sendParamsBad none (Or.inl rfl),
   tools_fail_fast_on_malformed_input.2 buyEnv0 buyParamsBad none
     (Or.inr (Or.inr (Or.inr (Or.inr (Or.inl rfl)))))⟩

/-- A `failed` transaction carrying no reference anywhere. -/
def failedNoRefData : TxStatusData := ⟨"t1", "failed", none, none, none⟩

/-- Oracle for the C9 witness. -/
def c9wFetch : Nat → Except String TxStatusData := fun _ => .ok failedNoRefData

theorem waitForTransactionBroadcast_failed_aborts_witness :
    (waitForTransactionBroadcastRun c9wFetch 30000 2000).result =
      .error (.txFailedDuringBroadcast (mapTransactionStatus failedNoRefData)) ∧
    (waitForTransactionBroadcastRun c9wFetch 30000 2000).returnTime = 0 * 2000 :=
  waitForTransactionBroadcast_failed_aborts c9wFetch 30000 2000 0 failedNoRefData (by decide)
    (fun k hk => absurd hk (Nat.not_lt_zero k)) rfl rfl rfl (by decide)

end Crossmint
